import Mathlib

/-!
Shallow embedding of `main.py` of the Pong repository: the three-state
application loop (Menu / Play / GameOver) of `main()`.  The `Game` class
lives in `pong/game.py`, which is not among the source files; the loop only
constructs it (`Game(controls, sfx)`), advances it (`game.update()`), draws
it (`game.draw(screen)`) and reads the bat scores
(`max(bat.score for bat in game.bats)`).  We therefore parametrise the
embedding over an abstract `GameModel` exposing exactly those operations,
and track per-frame observable effects (update calls, draw calls, sound
cues, which screen is rendered) explicitly.
-/

namespace Pong

/-- Application states, from the `State` enum in `main.py` (lines 16-19). -/
inductive State where
  | menu
  | play
  | gameOver
deriving DecidableEq, Repr

/-- Tags for the two control functions imported from `pong.input`. -/
inductive CtrlFn where
  | p1_controls
  | p2_controls
deriving DecidableEq, Repr

/-- The `controls` tuple of `main.py`: an optional control function per
player (`None` is `none`). -/
abbrev Controls := Option CtrlFn × Option CtrlFn

/-- Abstract interface to the `Game` class (defined in `pong/game.py`,
which is not among the source files): `new` is the constructor
`Game(controls, sfx)` (the shared sfx handle is implicit), `update` is
`game.update()`, and `scores` reads `bat.score` of the two bats. -/
structure GameModel (G : Type) where
  new : Controls → G
  update : G → G
  scores : G → Nat × Nat

/-- The mutable loop variables of `main()` (lines 40-44, 50). -/
structure LoopState (G : Type) where
  state : State
  num_players : Nat
  controls : Controls
  game : G
  space_down : Bool
  running : Bool
deriving DecidableEq, Repr

/-- One frame's worth of polled OS input: whether the event queue holds a
`pygame.QUIT` event, and the pressed state of SPACE, UP and DOWN. -/
structure Input where
  quitEvent : Bool
  space : Bool
  up : Bool
  down : Bool
deriving DecidableEq, Repr

/-- Which screen the frame rendered. -/
inductive Screen where
  | menuScreen
  | playScreen
  | gameOverScreen
deriving DecidableEq, Repr

/-- Observable effects of one frame: how many times `game.update()` ran,
whether `game.draw(screen)` ran, which sound cues the loop itself played
(`sfx["up"]`, `sfx["down"]`; sounds played inside `Game.update` are not the
loop's), and which screen was rendered. -/
structure Effects where
  updateCalls : Nat
  gameDraw : Bool
  sounds : List String
  screen : Screen
deriving DecidableEq, Repr

/-- Rising-edge test of `main.py` line 61:
`space_pressed = space_now and not space_down`. -/
def space_pressed (space_now space_down : Bool) : Bool :=
  space_now && !space_down

/-- Menu navigation, `main.py` lines 67-72: returns the new `num_players`
together with the sound cues played. -/
def menu_nav (inp : Input) (num_players : Nat) : Nat × List String :=
  if inp.up && num_players == 2 then (1, ["up"])
  else if inp.down && num_players == 1 then (2, ["down"])
  else (num_players, [])

/-- One iteration of the `while running` loop of `main.py` (lines 51-123):
event handling, input polling with rising-edge detection, then the active
state's logic, returning the new loop state and the frame's effects. -/
def frame {G : Type} (M : GameModel G) (inp : Input) (s : LoopState G) :
    LoopState G × Effects :=
  let running := if inp.quitEvent then false else s.running
  let space_now := inp.space
  let pressed := space_pressed space_now s.space_down
  match s.state with
  | State.menu =>
    let nav := menu_nav inp s.num_players
    if pressed then
      let controls : Controls :=
        (some CtrlFn.p1_controls,
         if nav.1 == 2 then some CtrlFn.p2_controls else none)
      ({ state := State.play
         num_players := nav.1
         controls := controls
         game := M.new controls
         space_down := space_now
         running := running },
       { updateCalls := 0
         gameDraw := false
         sounds := nav.2
         screen := Screen.menuScreen })
    else
      ({ s with
          num_players := nav.1
          game := M.update s.game
          space_down := space_now
          running := running },
       { updateCalls := 1
         gameDraw := false
         sounds := nav.2
         screen := Screen.menuScreen })
  | State.play =>
    let game := M.update s.game
    let state :=
      if max (M.scores game).1 (M.scores game).2 > 9 then State.gameOver
      else State.play
    ({ s with
        state := state
        game := game
        space_down := space_now
        running := running },
     { updateCalls := 1
       gameDraw := true
       sounds := []
       screen := Screen.playScreen })
  | State.gameOver =>
    if pressed then
      ({ state := State.menu
         num_players := 1
         controls := (none, none)
         game := M.new (none, none)
         space_down := space_now
         running := running },
       { updateCalls := 0
         gameDraw := false
         sounds := []
         screen := Screen.gameOverScreen })
    else
      ({ s with
          space_down := space_now
          running := running },
       { updateCalls := 0
         gameDraw := false
         sounds := []
         screen := Screen.gameOverScreen })

/-- The initial loop state of `main()` (lines 40-44, 50). -/
def init_state {G : Type} (M : GameModel G) : LoopState G :=
  { state := State.menu
    num_players := 1
    controls := (none, none)
    game := M.new (none, none)
    space_down := false
    running := true }

/-- The `while running` loop over a finite schedule of frame inputs: each
iteration first checks `running` (the `while` condition), then executes one
frame.  Returns the final loop state and the effects of the frames run. -/
def run {G : Type} (M : GameModel G) (s : LoopState G) :
    List Input → LoopState G × List Effects
  | [] => (s, [])
  | inp :: rest =>
    if s.running then
      let fr := frame M inp s
      let r := run M fr.1 rest
      (r.1, fr.2 :: r.2)
    else (s, [])

/-- The rising-edge flag stream over a key-state sequence, threading the
`space_down` variable exactly as lines 59-62 do each frame. -/
def rising_edges : Bool → List Bool → List Bool
  | _, [] => []
  | prev, k :: rest => space_pressed k prev :: rising_edges k rest

/-- The process exit status of a normal close: `main()` ends with
`sys.exit()` (line 127), which with no argument exits with status 0. -/
def exit_code : Nat := 0

/-- A concrete instantiation of the abstract `Game` interface used to
evaluate the loop on concrete inputs: the game is just the score pair,
`update` leaves it unchanged and a fresh game starts at (0, 0). -/
def score_model : GameModel (Nat × Nat) :=
  { new := fun _ => (0, 0)
    update := fun g => g
    scores := fun g => g }

/-- A concrete menu-state loop state. -/
def demo_menu : LoopState (Nat × Nat) :=
  { state := State.menu
    num_players := 1
    controls := (none, none)
    game := (0, 0)
    space_down := false
    running := true }

/-- A concrete play-state loop state whose left bat already has 10 points. -/
def demo_play : LoopState (Nat × Nat) :=
  { demo_menu with state := State.play, game := (10, 0) }

/-- A concrete game-over-state loop state. -/
def demo_over : LoopState (Nat × Nat) :=
  { demo_menu with state := State.gameOver, game := (10, 3) }

/-- A concrete loop state whose `running` flag is already cleared. -/
def demo_stopped : LoopState (Nat × Nat) :=
  { demo_menu with running := false }

/-- Modelled from the spec: `pong/game.py` is not among the source files, so
the `Game` constructor's score initialisation is taken from the spec, which
states that for all Game instances "both scores start at 0".  A game model is
spec-conformant when every freshly constructed game has both scores zero. -/
def fresh_scores_zero {G : Type} (M : GameModel G) : Prop :=
  ∀ c : Controls, M.scores (M.new c) = (0, 0)

/-- A frame input with only a window-close event. -/
def quit_input : Input :=
  { quitEvent := true
    space := false
    up := false
    down := false }

/-- A frame input with no events and no keys pressed. -/
def idle_input : Input :=
  { quitEvent := false
    space := false
    up := false
    down := false }

/-- A frame input with only SPACE held. -/
def space_input : Input :=
  { quitEvent := false
    space := true
    up := false
    down := false }

/-- A frame input with only DOWN held. -/
def down_input : Input :=
  { quitEvent := false
    space := false
    up := false
    down := true }

/-- Claim C1: in the Play state the frame calls `game.update()` exactly once,
and after that update the state becomes GameOver exactly when the maximum of
the two bat scores of the updated game exceeds 9; while that condition is
false the state stays Play. -/
theorem play_to_game_over {G : Type} (M : GameModel G) (inp : Input)
    (s : LoopState G) (h : s.state = State.play) :
    (frame M inp s).2.updateCalls = 1 ∧
    (frame M inp s).1.game = M.update s.game ∧
    ((frame M inp s).1.state = State.gameOver ↔
      max (M.scores (M.update s.game)).1 (M.scores (M.update s.game)).2 > 9) ∧
    ((frame M inp s).1.state = State.play ↔
      ¬ max (M.scores (M.update s.game)).1 (M.scores (M.update s.game)).2 > 9) := by
  obtain ⟨st, np, cs, g, sd, r⟩ := s
  simp only at h
  subst h
  by_cases hw : max (M.scores (M.update g)).1 (M.scores (M.update g)).2 > 9 <;>
    simp [frame, hw]

/-- Witness for C1 at a concrete play state whose left bat has 10 points. -/
theorem play_to_game_over_witness :
    (frame score_model idle_input demo_play).2.updateCalls = 1 ∧
    (frame score_model idle_input demo_play).1.game =
      score_model.update demo_play.game ∧
    ((frame score_model idle_input demo_play).1.state = State.gameOver ↔
      max (score_model.scores (score_model.update demo_play.game)).1
        (score_model.scores (score_model.update demo_play.game)).2 > 9) ∧
    ((frame score_model idle_input demo_play).1.state = State.play ↔
      ¬ max (score_model.scores (score_model.update demo_play.game)).1
        (score_model.scores (score_model.update demo_play.game)).2 > 9) :=
  play_to_game_over score_model idle_input demo_play rfl

/-- Position `i` of the rising-edge stream is the key state at `i` with the
previous key state (or the seed before position 0) negated and conjoined. -/
theorem rising_edges_getD (prev : Bool) (ks : List Bool) (i : Nat)
    (h : i < ks.length) :
    (rising_edges prev ks).getD i false =
      (ks.getD i false && !(if i = 0 then prev else ks.getD (i - 1) false)) := by
  induction ks generalizing prev i with
  | nil => simp at h
  | cons k rest ih =>
    cases i with
    | zero => simp [rising_edges, space_pressed]
    | succ j =>
      have hj : j < rest.length := by simpa using h
      simp only [rising_edges, List.getD_cons_succ]
      rw [ih k j hj]
      cases j with
      | zero => simp
      | succ m => simp

/-- Claim C2: the SPACE rising-edge flag at frame `i` (with not-pressed as
the initial previous state) is true exactly when SPACE is down at frame `i`
and was not down at frame `i - 1` (or `i` is the first frame); on the key
sequence [down, down, down, up, down] the flags are exactly
[true, false, false, false, true]. -/
theorem space_rising_edge (ks : List Bool) (i : Nat) (h : i < ks.length) :
    ((rising_edges false ks).getD i false = true ↔
      (ks.getD i false = true ∧ (i = 0 ∨ ks.getD (i - 1) false = false))) ∧
    rising_edges false [true, true, true, false, true] =
      [true, false, false, false, true] := by
  constructor
  · rw [rising_edges_getD false ks i h]
    cases i with
    | zero => simp
    | succ j => simp
  · rfl

/-- Witness for C2 at the spec's key sequence, frame index 4. -/
theorem space_rising_edge_witness :
    (((rising_edges false [true, true, true, false, true]).getD 4 false = true ↔
      ([true, true, true, false, true].getD 4 false = true ∧
        (4 = 0 ∨ [true, true, true, false, true].getD (4 - 1) false = false))) ∧
    rising_edges false [true, true, true, false, true] =
      [true, false, false, false, true]) :=
  space_rising_edge [true, true, true, false, true] 4 (by decide)

/-- Claim C3: from the Menu state the frame transitions to Play exactly on a
SPACE rising edge, and on that transition the controls pair holds
`p1_controls` and holds `p2_controls` exactly when the (post-navigation)
player count is 2, and the game is a fresh `Game` built from those
controls. -/
theorem menu_to_play {G : Type} (M : GameModel G) (inp : Input)
    (s : LoopState G) (h : s.state = State.menu) :
    ((frame M inp s).1.state = State.play ↔
      space_pressed inp.space s.space_down = true) ∧
    (space_pressed inp.space s.space_down = true →
      (frame M inp s).1.controls =
        (some CtrlFn.p1_controls,
         if (menu_nav inp s.num_players).1 = 2 then some CtrlFn.p2_controls
         else none) ∧
      ((frame M inp s).1.controls.2.isSome = true ↔
        (menu_nav inp s.num_players).1 = 2) ∧
      (frame M inp s).1.game = M.new (frame M inp s).1.controls) := by
  obtain ⟨st, np, cs, g, sd, r⟩ := s
  simp only at h
  subst h
  by_cases hp : space_pressed inp.space sd = true
  · by_cases h2 : (menu_nav inp np).1 = 2 <;> simp [frame, hp, h2]
  · simp [frame, hp]

/-- Witness for C3 at a concrete menu state with SPACE newly held. -/
theorem menu_to_play_witness :
    ((frame score_model space_input demo_menu).1.state = State.play ↔
      space_pressed space_input.space demo_menu.space_down = true) ∧
    (space_pressed space_input.space demo_menu.space_down = true →
      (frame score_model space_input demo_menu).1.controls =
        (some CtrlFn.p1_controls,
         if (menu_nav space_input demo_menu.num_players).1 = 2 then
           some CtrlFn.p2_controls
         else none) ∧
      ((frame score_model space_input demo_menu).1.controls.2.isSome = true ↔
        (menu_nav space_input demo_menu.num_players).1 = 2) ∧
      (frame score_model space_input demo_menu).1.game =
        score_model.new (frame score_model space_input demo_menu).1.controls) :=
  menu_to_play score_model space_input demo_menu rfl

/-- Claim C4: from the GameOver state the frame transitions to Menu exactly
on a SPACE rising edge; without one the state stays GameOver; on the
transition the player count is reset to 1, the controls are cleared to
(none, none) and a fresh `Game` is built, whose two scores are therefore 0
for every spec-conformant game model. -/
theorem game_over_to_menu {G : Type} (M : GameModel G) (inp : Input)
    (s : LoopState G) (h : s.state = State.gameOver)
    (h0 : fresh_scores_zero M) :
    ((frame M inp s).1.state = State.menu ↔
      space_pressed inp.space s.space_down = true) ∧
    (space_pressed inp.space s.space_down = false →
      (frame M inp s).1.state = State.gameOver) ∧
    (space_pressed inp.space s.space_down = true →
      (frame M inp s).1.num_players = 1 ∧
      (frame M inp s).1.controls = (none, none) ∧
      (frame M inp s).1.game = M.new (none, none) ∧
      M.scores (frame M inp s).1.game = (0, 0)) := by
  obtain ⟨st, np, cs, g, sd, r⟩ := s
  simp only at h
  subst h
  by_cases hp : space_pressed inp.space sd = true <;>
    simp [frame, hp, h0 (none, none)]

/-- Witness for C4 at a concrete game-over state with SPACE newly held. -/
theorem game_over_to_menu_witness :
    ((frame score_model space_input demo_over).1.state = State.menu ↔
      space_pressed space_input.space demo_over.space_down = true) ∧
    (space_pressed space_input.space demo_over.space_down = false →
      (frame score_model space_input demo_over).1.state = State.gameOver) ∧
    (space_pressed space_input.space demo_over.space_down = true →
      (frame score_model space_input demo_over).1.num_players = 1 ∧
      (frame score_model space_input demo_over).1.controls = (none, none) ∧
      (frame score_model space_input demo_over).1.game =
        score_model.new (none, none) ∧
      score_model.scores (frame score_model space_input demo_over).1.game =
        (0, 0)) :=
  game_over_to_menu score_model space_input demo_over rfl (fun _ => rfl)

/-- Claim C5: in the Menu state, if UP is down and the count is 2 the count
becomes 1 and only the "up" cue plays; otherwise if DOWN is down and the
count is 1 the count becomes 2 and only the "down" cue plays; otherwise the
count is unchanged and no cue plays. -/
theorem menu_navigation {G : Type} (M : GameModel G) (inp : Input)
    (s : LoopState G) (h : s.state = State.menu) :
    ((inp.up = true ∧ s.num_players = 2) →
      (frame M inp s).1.num_players = 1 ∧
      (frame M inp s).2.sounds = ["up"]) ∧
    (¬(inp.up = true ∧ s.num_players = 2) →
      (inp.down = true ∧ s.num_players = 1) →
      (frame M inp s).1.num_players = 2 ∧
      (frame M inp s).2.sounds = ["down"]) ∧
    (¬(inp.up = true ∧ s.num_players = 2) →
      ¬(inp.down = true ∧ s.num_players = 1) →
      (frame M inp s).1.num_players = s.num_players ∧
      (frame M inp s).2.sounds = []) := by
  obtain ⟨st, np, cs, g, sd, r⟩ := s
  simp only at h
  subst h
  have base :
      (frame M inp ⟨State.menu, np, cs, g, sd, r⟩).1.num_players =
        (menu_nav inp np).1 ∧
      (frame M inp ⟨State.menu, np, cs, g, sd, r⟩).2.sounds =
        (menu_nav inp np).2 := by
    by_cases hp : space_pressed inp.space sd = true <;> simp [frame, hp]
  rw [base.1, base.2]
  refine ⟨?_, ?_, ?_⟩
  · rintro ⟨hu, hnp⟩
    simp only at hnp
    subst hnp
    simp [menu_nav, hu]
  · intro hno ⟨hd, hnp⟩
    simp only at hnp
    subst hnp
    simp [menu_nav, hd]
  · intro h1 h2
    have hc1 : (inp.up && np == 2) = false := by
      cases hu : inp.up
      · simp
      · simp only [Bool.true_and, beq_eq_false_iff_ne, ne_eq]
        intro hnp
        exact h1 ⟨hu, hnp⟩
    have hc2 : (inp.down && np == 1) = false := by
      cases hd : inp.down
      · simp
      · simp only [Bool.true_and, beq_eq_false_iff_ne, ne_eq]
        intro hnp
        exact h2 ⟨hd, hnp⟩
    simp [menu_nav, hc1, hc2]

/-- Witness for C5 at a concrete menu state with DOWN held and count 1. -/
theorem menu_navigation_witness :
    ((down_input.up = true ∧ demo_menu.num_players = 2) →
      (frame score_model down_input demo_menu).1.num_players = 1 ∧
      (frame score_model down_input demo_menu).2.sounds = ["up"]) ∧
    (¬(down_input.up = true ∧ demo_menu.num_players = 2) →
      (down_input.down = true ∧ demo_menu.num_players = 1) →
      (frame score_model down_input demo_menu).1.num_players = 2 ∧
      (frame score_model down_input demo_menu).2.sounds = ["down"]) ∧
    (¬(down_input.up = true ∧ demo_menu.num_players = 2) →
      ¬(down_input.down = true ∧ demo_menu.num_players = 1) →
      (frame score_model down_input demo_menu).1.num_players =
        demo_menu.num_players ∧
      (frame score_model down_input demo_menu).2.sounds = []) :=
  menu_navigation score_model down_input demo_menu rfl

/-- Claim C6: on every Menu frame without a SPACE rising edge the background
game advances by exactly one `game.update()` call and the state remains
Menu. -/
theorem menu_background_update {G : Type} (M : GameModel G) (inp : Input)
    (s : LoopState G) (h : s.state = State.menu)
    (hp : space_pressed inp.space s.space_down = false) :
    (frame M inp s).2.updateCalls = 1 ∧
    (frame M inp s).1.game = M.update s.game ∧
    (frame M inp s).1.state = State.menu := by
  obtain ⟨st, np, cs, g, sd, r⟩ := s
  simp only at h
  subst h
  simp [frame, hp]

/-- Witness for C6 at a concrete idle menu frame. -/
theorem menu_background_update_witness :
    (frame score_model idle_input demo_menu).2.updateCalls = 1 ∧
    (frame score_model idle_input demo_menu).1.game =
      score_model.update demo_menu.game ∧
    (frame score_model idle_input demo_menu).1.state = State.menu :=
  menu_background_update score_model idle_input demo_menu rfl rfl

/-- Claim C7: a window-close event, checked once per frame, clears the
`running` flag in every state, the loop performs no further iteration once
`running` is false, and the subsequent `sys.exit()` yields exit status 0. -/
theorem quit_terminates :
    (∀ (G : Type) (M : GameModel G) (inp : Input) (s : LoopState G),
      inp.quitEvent = true → (frame M inp s).1.running = false) ∧
    (∀ (G : Type) (M : GameModel G) (s : LoopState G) (inputs : List Input),
      s.running = false → run M s inputs = (s, [])) ∧
    exit_code = 0 := by
  refine ⟨?_, ?_, rfl⟩
  · intro G M inp s hq
    obtain ⟨st, np, cs, g, sd, r⟩ := s
    cases st <;> by_cases hp : space_pressed inp.space sd = true <;>
      simp [frame, hq, hp]
  · intro G M s inputs hr
    cases inputs with
    | nil => rfl
    | cons inp rest => simp [run, hr]

/-- Witness for C7: a quit event in the menu clears `running`, and a stopped
loop runs no frame. -/
theorem quit_terminates_witness :
    (frame score_model quit_input demo_menu).1.running = false ∧
    run score_model demo_stopped [idle_input] = (demo_stopped, []) :=
  ⟨quit_terminates.1 (Nat × Nat) score_model quit_input demo_menu rfl,
   quit_terminates.2.1 (Nat × Nat) score_model demo_stopped [idle_input] rfl⟩

/-- Claim C8: the player count starts at 1 and every frame keeps it in
the set containing 1 and 2. -/
theorem num_players_in_one_two :
    (∀ (G : Type) (M : GameModel G), (init_state M).num_players = 1) ∧
    (∀ (G : Type) (M : GameModel G) (inp : Input) (s : LoopState G),
      s.num_players = 1 ∨ s.num_players = 2 →
      (frame M inp s).1.num_players = 1 ∨
        (frame M inp s).1.num_players = 2) := by
  refine ⟨fun G M => rfl, ?_⟩
  intro G M inp s hs
  obtain ⟨st, np, cs, g, sd, r⟩ := s
  simp only at hs
  have hnav : (menu_nav inp np).1 = 1 ∨ (menu_nav inp np).1 = 2 := by
    unfold menu_nav
    split
    · exact Or.inl rfl
    · split
      · exact Or.inr rfl
      · exact hs
  cases st <;> by_cases hp : space_pressed inp.space sd = true <;>
    simp [frame, hp] <;> first
      | exact hnav
      | exact hs

/-- Witness for C8 at a concrete idle menu frame with count 1. -/
theorem num_players_in_one_two_witness :
    (frame score_model idle_input demo_menu).1.num_players = 1 ∨
      (frame score_model idle_input demo_menu).1.num_players = 2 :=
  num_players_in_one_two.2 (Nat × Nat) score_model idle_input demo_menu
    (Or.inl rfl)

/-- Claim C9: on the Menu-to-Play transition frame no `game.update()` or
`game.draw()` runs and the menu screen is still rendered, the state becomes
Play, and the following frame performs exactly one update and a draw;
symmetrically, on the GameOver-to-Menu transition frame the game-over
screen is still rendered. -/
theorem transition_frame_effects :
    (∀ (G : Type) (M : GameModel G) (inp : Input) (s : LoopState G),
      s.state = State.menu → space_pressed inp.space s.space_down = true →
      (frame M inp s).2.updateCalls = 0 ∧
      (frame M inp s).2.gameDraw = false ∧
      (frame M inp s).2.screen = Screen.menuScreen ∧
      (frame M inp s).1.state = State.play ∧
      (∀ inp2 : Input,
        (frame M inp2 (frame M inp s).1).2.updateCalls = 1 ∧
        (frame M inp2 (frame M inp s).1).2.gameDraw = true)) ∧
    (∀ (G : Type) (M : GameModel G) (inp : Input) (s : LoopState G),
      s.state = State.gameOver → space_pressed inp.space s.space_down = true →
      (frame M inp s).2.updateCalls = 0 ∧
      (frame M inp s).2.gameDraw = false ∧
      (frame M inp s).2.screen = Screen.gameOverScreen) := by
  constructor
  · intro G M inp s h hp
    obtain ⟨st, np, cs, g, sd, r⟩ := s
    simp only at h
    subst h
    simp [frame, hp]
  · intro G M inp s h hp
    obtain ⟨st, np, cs, g, sd, r⟩ := s
    simp only at h
    subst h
    simp [frame, hp]

/-- Witness for C9 at concrete transition frames with SPACE newly held. -/
theorem transition_frame_effects_witness :
    ((frame score_model space_input demo_menu).2.updateCalls = 0 ∧
     (frame score_model space_input demo_menu).2.gameDraw = false ∧
     (frame score_model space_input demo_menu).2.screen = Screen.menuScreen ∧
     (frame score_model space_input demo_menu).1.state = State.play ∧
     (∀ inp2 : Input,
       (frame score_model inp2
         (frame score_model space_input demo_menu).1).2.updateCalls = 1 ∧
       (frame score_model inp2
         (frame score_model space_input demo_menu).1).2.gameDraw = true)) ∧
    ((frame score_model space_input demo_over).2.updateCalls = 0 ∧
     (frame score_model space_input demo_over).2.gameDraw = false ∧
     (frame score_model space_input demo_over).2.screen =
       Screen.gameOverScreen) :=
  ⟨transition_frame_effects.1 (Nat × Nat) score_model space_input demo_menu
      rfl rfl,
   transition_frame_effects.2 (Nat × Nat) score_model space_input demo_over
      rfl rfl⟩

/-- Claim C10: in the GameOver state no frame calls `game.update()`; without
a SPACE rising edge the game object is unchanged and the state stays
GameOver, and with one the game is replaced by a fresh `Game` built from
cleared controls. -/
theorem game_over_frozen {G : Type} (M : GameModel G) (inp : Input)
    (s : LoopState G) (h : s.state = State.gameOver) :
    (frame M inp s).2.updateCalls = 0 ∧
    (space_pressed inp.space s.space_down = false →
      (frame M inp s).1.game = s.game ∧
      (frame M inp s).1.state = State.gameOver) ∧
    (space_pressed inp.space s.space_down = true →
      (frame M inp s).1.game = M.new (none, none)) := by
  obtain ⟨st, np, cs, g, sd, r⟩ := s
  simp only at h
  subst h
  by_cases hp : space_pressed inp.space sd = true <;> simp [frame, hp]

/-- Witness for C10 at a concrete idle game-over frame. -/
theorem game_over_frozen_witness :
    (frame score_model idle_input demo_over).2.updateCalls = 0 ∧
    (space_pressed idle_input.space demo_over.space_down = false →
      (frame score_model idle_input demo_over).1.game = demo_over.game ∧
      (frame score_model idle_input demo_over).1.state = State.gameOver) ∧
    (space_pressed idle_input.space demo_over.space_down = true →
      (frame score_model idle_input demo_over).1.game =
        score_model.new (none, none)) :=
  game_over_frozen score_model idle_input demo_over rfl

end Pong
